import Mathlib

/-!
Verification of the jqdata client (src/jqdata/client.py, src/jqdata/error.py)
against its natural-language specification.

The embedding models the two core components:
  * `validate_date` / `validateDates` — the date-format check `_validate_date`
    and the loop in `_post` that applies it to payload keys ending in "date";
  * `post` — the request dispatcher `JqClient._post`: payload construction
    (drop `self`, inject `method`, drop absent values, validate dates, attach
    token), and classification/decoding of the HTTP response envelope;
  * `initClient` — `JqClient.initialize`: the retrieval attempt
    (`get_current_token`) with the mint fallback (`get_token`) and the token
    assignment.

Python strings are Lean `String`s; a payload is an association list
`List (String × Option String)` where `none` is an absent (Python `None`)
value; the HTTP transport is modelled by passing the response envelope
(status code and body text) as an argument and counting how many times the
transport would have been invoked (0 when the dispatcher fails locally
before `requests.post`, 1 otherwise).
-/

/-- Splits a character list at every occurrence of the separator, keeping
empty segments, as Python str.split with an explicit separator does
(so the empty input yields one empty segment). -/
def splitChar (sep : Char) : List Char → List (List Char)
  | [] => [[]]
  | c :: rest =>
    let r := splitChar sep rest
    if c = sep then [] :: r
    else
      match r with
      | [] => [[c]]
      | h :: t => (c :: h) :: t

/-- Models Python str.split on a single newline character. -/
def pySplitNl (s : String) : List String :=
  (splitChar (Char.ofNat 10) s.data).map String.mk

/-- Models Python str.startswith. -/
def strStartsWith (s p : String) : Bool :=
  p.data.isPrefixOf s.data

/-- Models Python str.endswith. -/
def strEndsWith (s p : String) : Bool :=
  p.data.isSuffixOf s.data

/-- Models Python str.lower (ASCII, which covers every key the client uses). -/
def pyLower (s : String) : String :=
  String.mk (s.data.map Char.toLower)

/-- Numeric value of a list of decimal digit characters. -/
def digitsToNat (cs : List Char) : Nat :=
  cs.foldl (fun a c => a * 10 + (c.toNat - 48)) 0

/-- Gregorian leap-year rule, as Python datetime uses. -/
def isLeap (y : Nat) : Bool :=
  (y % 4 = 0 && y % 100 ≠ 0) || y % 400 = 0

/-- Number of days of month m in year y, as Python datetime uses. -/
def daysInMonth (y m : Nat) : Nat :=
  if m = 2 then (if isLeap y then 29 else 28)
  else if m = 4 ∨ m = 6 ∨ m = 9 ∨ m = 11 then 30
  else 31

/-- Models success of Python datetime.strptime(s, "%Y-%m-%d") (the external
stdlib routine the client calls): a four-digit year of at least 1, a one- or
two-digit month in 1..12, and a one- or two-digit day valid for that month,
separated by hyphens, with nothing left over. -/
def parsesYMD (s : String) : Bool :=
  match splitChar (Char.ofNat 45) s.data with
  | [ys, ms, ds] =>
    decide (ys.length = 4) && decide (1 ≤ ms.length ∧ ms.length ≤ 2) &&
    decide (1 ≤ ds.length ∧ ds.length ≤ 2) &&
    ys.all Char.isDigit && ms.all Char.isDigit && ds.all Char.isDigit &&
    (let y := digitsToNat ys
     let m := digitsToNat ms
     let d := digitsToNat ds
     decide (1 ≤ y) && decide (1 ≤ m ∧ m ≤ 12) &&
     decide (1 ≤ d ∧ d ≤ daysInMonth y m))
  | _ => false

/-- The error classes of src/jqdata/error.py, plus Python's builtin
ValueError which `_post` raises for an empty token and `_validate_date`
raises for a bad date. -/
inductive Err where
  | valueError (msg : String)
  | authError (msg : String)
  | timeOutError (msg : String)
  | serverError (msg : String)
  | unknownError (msg : String)
deriving DecidableEq, Repr

/-- Embeds `_validate_date` from src/jqdata/client.py faithfully, including
its bug: when the argument is truthy it parses the string literal
"2019-01-01" (not the argument), so the ValueError branch is unreachable. -/
def validate_date (date : Option String) : Except Err Unit :=
  match date with
  | none => .ok ()
  | some d =>
    if d.isEmpty then .ok ()
    else if parsesYMD "2019-01-01" then .ok ()
    else .error (.valueError ("incorrect date format for " ++ d))

/-- A payload is an association list from key to possibly-absent value. -/
abbrev Payload := List (String × Option String)

/-- Embeds the loop in `_post` that runs `_validate_date` on the value of
every payload key whose lowercase form ends in "date". -/
def validateDates : Payload → Except Err Unit
  | [] => .ok ()
  | (k, v) :: rest =>
    if strEndsWith (pyLower k) "date" then
      match validate_date v with
      | .ok _ => validateDates rest
      | .error e => .error e
    else validateDates rest

/-- Python dict assignment on the association list: replace the value at the
first occurrence of the key, or append the binding when the key is absent. -/
def setKey : Payload → String → Option String → Payload
  | [], k, v => [(k, v)]
  | (k0, v0) :: rest, k, v =>
    if k0 = k then (k, v) :: rest else (k0, v0) :: setKey rest k v

/-- Python dict.pop on the association list: remove the key. -/
def popKey (p : Payload) (k : String) : Payload :=
  p.filter (fun kv => kv.1 ≠ k)

/-- The keys of a payload. -/
def keys (p : Payload) : List String :=
  p.map Prod.fst

/-- A structured (JSON-like) value, the result of the json response format. -/
inductive JVal where
  | jnull
  | jbool (b : Bool)
  | jnum (n : Int)
  | jstr (s : String)
  | jarr (elems : List JVal)
  | jobj (fields : List (String × JVal))
deriving Repr

/-- Skips JSON whitespace. -/
def skipWs : List Char → List Char
  | c :: rest =>
    if c.toNat = 32 ∨ c.toNat = 9 ∨ c.toNat = 10 ∨ c.toNat = 13 then skipWs rest
    else c :: rest
  | [] => []

/-- Resolves a JSON string escape character (enough for the bodies the
claims concern: quote, backslash, slash, n, t). -/
def unescape (c : Char) : Char :=
  if c = 'n' then Char.ofNat 10
  else if c = 't' then Char.ofNat 9
  else c

/-- Parses the contents of a JSON string after the opening quote, returning
the characters and the remainder after the closing quote. -/
def parseStrAux : List Char → Option (List Char × List Char)
  | [] => none
  | c :: rest =>
    if c.toNat = 34 then some ([], rest)
    else if c.toNat = 92 then
      match rest with
      | [] => none
      | d :: rest2 =>
        match parseStrAux rest2 with
        | some (s, rem) => some (unescape d :: s, rem)
        | none => none
    else
      match parseStrAux rest with
      | some (s, rem) => some (c :: s, rem)
      | none => none

/-- Splits off the leading run of decimal digits. -/
def parseDigits : List Char → (List Char × List Char)
  | [] => ([], [])
  | c :: rest =>
    if c.isDigit then
      let (ds, rem) := parseDigits rest
      (c :: ds, rem)
    else ([], c :: rest)

/-- Parses the comma-separated elements of a JSON array after the opening
bracket (at least one element), given a parser pv for a single value. -/
def parseElems (pv : List Char → Option (JVal × List Char)) :
    Nat → List Char → Option (List JVal × List Char)
  | 0, _ => none
  | n + 1, input =>
    match pv input with
    | none => none
    | some (v, rem) =>
      match skipWs rem with
      | [] => none
      | c :: rest =>
        if c.toNat = 44 then
          match parseElems pv n rest with
          | some (vs, rem2) => some (v :: vs, rem2)
          | none => none
        else if c.toNat = 93 then some ([v], rest)
        else none

/-- Parses the comma-separated fields of a JSON object after the opening
brace (at least one field), given a parser pv for a single value. -/
def parseFields (pv : List Char → Option (JVal × List Char)) :
    Nat → List Char → Option (List (String × JVal) × List Char)
  | 0, _ => none
  | n + 1, input =>
    match skipWs input with
    | [] => none
    | c :: rest =>
      if c.toNat = 34 then
        match parseStrAux rest with
        | none => none
        | some (k, rem) =>
          match skipWs rem with
          | [] => none
          | d :: rest2 =>
            if d.toNat = 58 then
              match pv rest2 with
              | none => none
              | some (v, rem2) =>
                match skipWs rem2 with
                | [] => none
                | e :: rest3 =>
                  if e.toNat = 44 then
                    match parseFields pv n rest3 with
                    | some (fs, rem3) => some ((String.mk k, v) :: fs, rem3)
                    | none => none
                  else if e.toNat = 125 then some ([(String.mk k, v)], rest3)
                  else none
            else none
      else none

/-- Parses one JSON value with the given recursion fuel, returning the value
and the unconsumed remainder. -/
def parseVal (fuel : Nat) : List Char → Option (JVal × List Char) :=
  Nat.rec (motive := fun _ => List Char → Option (JVal × List Char))
    (fun _ => none)
    (fun n ih input =>
      match skipWs input with
      | [] => none
      | c :: rest =>
        if c.toNat = 34 then
          match parseStrAux rest with
          | some (s, rem) => some (.jstr (String.mk s), rem)
          | none => none
        else if c.toNat = 123 then
          match skipWs rest with
          | [] => none
          | d :: rest2 =>
            if d.toNat = 125 then some (.jobj [], rest2)
            else
              match parseFields ih (n + 1) rest with
              | some (fs, rem) => some (.jobj fs, rem)
              | none => none
        else if c.toNat = 91 then
          match skipWs rest with
          | [] => none
          | d :: rest2 =>
            if d.toNat = 93 then some (.jarr [], rest2)
            else
              match parseElems ih (n + 1) rest with
              | some (vs, rem) => some (.jarr vs, rem)
              | none => none
        else if c = 't' then
          if "rue".data.isPrefixOf rest then some (.jbool true, rest.drop 3) else none
        else if c = 'f' then
          if "alse".data.isPrefixOf rest then some (.jbool false, rest.drop 4) else none
        else if c = 'n' then
          if "ull".data.isPrefixOf rest then some (.jnull, rest.drop 3) else none
        else if c.toNat = 45 then
          match parseDigits rest with
          | ([], _) => none
          | (ds, rem) => some (.jnum (-(Int.ofNat (digitsToNat ds))), rem)
        else if c.isDigit then
          match parseDigits (c :: rest) with
          | (ds, rem) => some (.jnum (Int.ofNat (digitsToNat ds)), rem)
        else none)
    fuel

/-- Models res.json(), i.e. Python json.loads as `_post` uses it: a
recursive-descent JSON parser over the body. Numbers are modelled as
integers (no fraction or exponent forms), which covers the documents the
claims concern; trailing non-whitespace makes the parse fail, as json.loads
rejects unconverted data. -/
def jparse (s : String) : Option JVal :=
  match parseVal (s.data.length + 1) s.data with
  | some (v, rem) => if skipWs rem = [] then some v else none
  | none => none

/-- The HTTP response envelope: status code and body text. The transport is
modelled by handing this envelope to the dispatcher. -/
structure Resp where
  status : Nat
  body : String
deriving DecidableEq, Repr

/-- The four admissible response formats of `_post` (its assert rules out
anything else, so the type enumerates exactly them). -/
inductive Fmt where
  | fstring
  | flist
  | fcsv
  | fjson
deriving DecidableEq, Repr

/-- A decoded result of `_post`. The csv variant carries the raw body text:
its tabular parsing is done by the external pandas library, which no claim
inspects. -/
inductive Res where
  | rstr (s : String)
  | rlist (xs : List String)
  | rcsv (raw : String)
  | rjson (j : JVal)
deriving Repr

/-- Models the requests library Response.ok property: true exactly when
raise_for_status would not raise, i.e. the status code is outside 400..599.
Note this includes every status below 400, not only the 2xx range. -/
def resOk (status : Nat) : Bool :=
  !(400 ≤ status && status < 600)

/-- Embeds the response-handling tail of `_post` (lines 58-76 of client.py):
the classification order 504, 500, ok-with-error-body, then decoding per
format, and the final unknown error for a non-ok status. A body that the
json format cannot parse is a ValueError, as res.json() raises a
json-decode ValueError. -/
def classify (fmt : Fmt) (r : Resp) : Except Err Res :=
  if r.status = 504 then
    .error (.timeOutError "server timed out. please try to reduce [count] or try later")
  else if r.status = 500 then
    .error (.serverError "server error. please check your parameter or try later")
  else if resOk r.status then
    if strStartsWith r.body "error:auth failed" then
      .error (.authError "auth failed, please check your credentials")
    else if strStartsWith r.body "error:" then
      .error (.unknownError ("error return with ok status. message: $" ++ r.body))
    else
      match fmt with
      | .flist => .ok (.rlist (pySplitNl r.body))
      | .fcsv => .ok (.rcsv r.body)
      | .fjson =>
        match jparse r.body with
        | some j => .ok (.rjson j)
        | none => .error (.valueError "json decode failed")
      | .fstring => .ok (.rstr r.body)
  else
    .error (.unknownError ("post returns unsuccessful with status " ++
      toString r.status ++ ". message: " ++ r.body))

/-- The client state: credentials fixed at construction, and the token field
(initially Python None; Python falsiness of the token covers both None and
the empty string). -/
structure Client where
  mob : String
  pwd : String
  token : Option String
deriving DecidableEq, Repr

/-- Python truthiness of the token field. -/
def tokenTruthy : Option String → Bool
  | none => false
  | some s => !s.isEmpty

/-- The payload-construction pipeline of `_post` before the token step:
drop the `self` key, inject the caller name under `method` when
include_caller is set, then drop every absent value. -/
def buildPayload (p : Payload) (caller : String) (ic : Bool) : Payload :=
  (if ic then setKey (popKey p "self") "method" (some caller) else popKey p "self").filter
    (fun kv => kv.2.isSome)

/-- The observable outcome of one `_post` call: the returned value or raised
error, the number of transport invocations (0 when `_post` fails locally
before requests.post, 1 otherwise), the payload handed to the transport when
one was, and the client state after the call. -/
structure PostResult where
  outcome : Except Err Res
  calls : Nat
  sent : Option Payload
  client : Client
deriving Repr

/-- Embeds `JqClient._post`: payload construction, date validation, the
local token check, and classification of the response envelope. The caller
argument stands for the inspect.stack caller name. No branch assigns the
token field, mirroring the absence of any assignment to self.token in
`_post`. -/
def post (c : Client) (p : Payload) (caller : String) (ic it : Bool)
    (fmt : Fmt) (r : Resp) : PostResult :=
  let p3 := buildPayload p caller ic
  match validateDates p3 with
  | .error e => { outcome := .error e, calls := 0, sent := none, client := c }
  | .ok _ =>
    if it then
      if tokenTruthy c.token then
        { outcome := classify fmt r, calls := 1,
          sent := some (setKey p3 "token" (some (c.token.getD ""))), client := c }
      else
        { outcome := .error (.valueError "token is empty, please initialize first"),
          calls := 0, sent := none, client := c }
    else
      { outcome := classify fmt r, calls := 1, sent := some p3, client := c }

/-- The string a successful string-format `_post` returns. `initialize`
always requests the string format, so only the rstr variant is reachable at
its call sites; the remaining variants get a junk default. -/
def resStr : Res → String
  | .rstr s => s
  | _ => ""

/-- The payload `initialize` builds: the operation name under `method`, and
the credentials. -/
def initPayload (c : Client) (m : String) : Payload :=
  [("method", some m), ("mob", some c.mob), ("pwd", some c.pwd)]

/-- The observable outcome of one `initialize` call: success or the raised
error, the token field after the call, and the total number of transport
invocations across both attempts. -/
structure InitResult where
  outcome : Except Err Unit
  token : Option String
  calls : Nat
deriving Repr

/-- Embeds `JqClient.initialize`: a first `_post` with method
get_current_token (no caller injection, no token attachment, string
format); when and only when that raises UnknownError, a second `_post` with
method get_token; finally self.token is assigned the successful result.
The two envelopes r1 and r2 are what the transport would answer to the
first and second attempts. -/
def initClient (c : Client) (r1 r2 : Resp) : InitResult :=
  let a1 := post c (initPayload c "get_current_token") "" false false .fstring r1
  match a1.outcome with
  | .ok res => { outcome := .ok (), token := some (resStr res), calls := a1.calls }
  | .error (.unknownError _) =>
    let a2 := post c (initPayload c "get_token") "" false false .fstring r2
    match a2.outcome with
    | .ok res => { outcome := .ok (), token := some (resStr res), calls := a1.calls + a2.calls }
    | .error e2 => { outcome := .error e2, token := c.token, calls := a1.calls + a2.calls }
  | .error e => { outcome := .error e, token := c.token, calls := a1.calls }

/-! ## Helper lemmas -/

/-- Because `_validate_date` parses the literal "2019-01-01" instead of its
argument, it succeeds on every input. -/
theorem validate_date_ok (d : Option String) : validate_date d = .ok () := by
  cases d with
  | none => rfl
  | some s =>
    unfold validate_date
    by_cases h : s.isEmpty
    · simp [h]
    · simp [h, show parsesYMD "2019-01-01" = true from rfl]

/-- Consequently the date-validation loop in `_post` succeeds on every
payload. -/
theorem validateDates_ok (p : Payload) : validateDates p = .ok () := by
  induction p with
  | nil => rfl
  | cons kv rest ih =>
    obtain ⟨k, v⟩ := kv
    unfold validateDates
    rw [validate_date_ok]
    by_cases h : strEndsWith (pyLower k) "date" = true <;> simp [h, ih]

/-- Normal form of `_post` when the token is not attached: the transport is
invoked once with the built payload, and the outcome is the classification
of the envelope. -/
theorem post_no_token (c : Client) (p : Payload) (caller : String) (ic : Bool)
    (fmt : Fmt) (r : Resp) :
    post c p caller ic false fmt r =
      { outcome := classify fmt r, calls := 1,
        sent := some (buildPayload p caller ic), client := c } := by
  simp only [post, validateDates_ok, Bool.false_eq_true, if_false]

/-- Normal form of `_post` when the token is attached and present. -/
theorem post_with_token (c : Client) (p : Payload) (caller : String) (ic : Bool)
    (fmt : Fmt) (r : Resp) (h : tokenTruthy c.token = true) :
    post c p caller ic true fmt r =
      { outcome := classify fmt r, calls := 1,
        sent := some (setKey (buildPayload p caller ic) "token" (some (c.token.getD ""))),
        client := c } := by
  simp only [post, validateDates_ok, if_true, h]

/-- A body starting with the auth-failed prefix starts with the error
prefix. -/
theorem authPrefix_mono (b : String) (h : strStartsWith b "error:auth failed" = true) :
    strStartsWith b "error:" = true := by
  unfold strStartsWith at h ⊢
  rw [List.isPrefixOf_iff_prefix] at h ⊢
  exact List.IsPrefix.trans (by decide) h

/-- A 2xx status is neither 504 nor 500 and is ok in the requests sense. -/
theorem status2xx_ok (s : Nat) (h2 : 200 ≤ s) (h3 : s < 300) :
    s ≠ 504 ∧ s ≠ 500 ∧ resOk s = true := by
  refine ⟨by omega, by omega, ?_⟩
  simp only [resOk, Bool.not_eq_eq_eq_not, Bool.not_true, Bool.and_eq_false_imp,
    decide_eq_true_eq, decide_eq_false_iff_not]
  omega

/-- Classification of a 2xx envelope whose body has no error prefix reaches
the decoding step of the requested format. -/
theorem classify_2xx (fmt : Fmt) (s : Nat) (b : String) (h2 : 200 ≤ s) (h3 : s < 300)
    (he : strStartsWith b "error:" = false) :
    classify fmt { status := s, body := b } =
      (match fmt with
       | .flist => .ok (.rlist (pySplitNl b))
       | .fcsv => .ok (.rcsv b)
       | .fjson =>
         match jparse b with
         | some j => .ok (.rjson j)
         | none => .error (.valueError "json decode failed")
       | .fstring => .ok (.rstr b)) := by
  obtain ⟨h504, h500, hok⟩ := status2xx_ok s h2 h3
  have ha : strStartsWith b "error:auth failed" = false := by
    by_contra hc
    rw [Bool.not_eq_false] at hc
    rw [authPrefix_mono b hc] at he
    exact Bool.true_eq_false.mp he
  unfold classify
  simp [h504, h500, hok, ha, he]

/-- A binding of the payload after a dict assignment was already present or
carries the assigned key. -/
theorem mem_setKey_pair (k0 : String) (v : Option String) (k : String)
    (w : Option String) :
    ∀ q : Payload, (k, w) ∈ setKey q k0 v → (k, w) ∈ q ∨ k = k0 := by
  intro q
  induction q with
  | nil =>
    intro h
    simp only [setKey, List.mem_singleton, Prod.mk.injEq] at h
    exact Or.inr h.1
  | cons kv rest ih =>
    obtain ⟨k1, v1⟩ := kv
    intro h
    simp only [setKey] at h
    by_cases hk : k1 = k0
    · rw [if_pos hk] at h
      rcases List.mem_cons.mp h with h1 | h1
      · exact Or.inr (congrArg Prod.fst h1)
      · exact Or.inl (List.mem_cons_of_mem _ h1)
    · rw [if_neg hk] at h
      rcases List.mem_cons.mp h with h1 | h1
      · exact Or.inl (List.mem_cons.mpr (Or.inl h1))
      · rcases ih h1 with h2 | h2
        · exact Or.inl (List.mem_cons_of_mem _ h2)
        · exact Or.inr h2

/-- Every key of the payload that `_post` builds before the token step comes
from a present (non-absent) input binding, or is the injected `method` key
(only when include_caller is set). -/
theorem mem_keys_buildPayload (p : Payload) (caller : String) (ic : Bool) (k : String)
    (hk : k ∈ keys (buildPayload p caller ic)) :
    (∃ v, (k, some v) ∈ p) ∨ (ic = true ∧ k = "method") := by
  unfold buildPayload at hk
  rw [keys, List.mem_map] at hk
  obtain ⟨⟨k1, w⟩, hmem, hfst⟩ := hk
  obtain ⟨hin, hsome⟩ := List.mem_filter.mp hmem
  simp only at hfst hsome
  subst hfst
  obtain ⟨v, rfl⟩ := Option.isSome_iff_exists.mp hsome
  cases ic with
  | false =>
    simp only [Bool.false_eq_true, if_false] at hin
    exact Or.inl ⟨v, (List.mem_filter.mp hin).1⟩
  | true =>
    simp only [if_true] at hin
    rcases mem_setKey_pair "method" (some caller) k1 (some v) _ hin with h1 | h1
    · exact Or.inl ⟨v, (List.mem_filter.mp h1).1⟩
    · exact Or.inr ⟨rfl, h1⟩

/-! ## Claim theorems -/

/-- C1: the claim says a present payload value under a key ending in "date"
(case-insensitive) that does not parse as YYYY-MM-DD makes the dispatcher
fail locally with a format error before any network call (zero transport
invocations). The code contradicts this: `_validate_date` parses the string
literal "2019-01-01" instead of its argument, so the check never fails. At
the failing input — key "end_date" with present value "banana", which does
not parse as YYYY-MM-DD — the dispatcher invokes the transport once and
returns the decoded response without any local error. -/
theorem c1_bad_date_still_sent :
    parsesYMD "banana" = false ∧
    validate_date (some "banana") = .ok () ∧
    (post ⟨"m", "p", some "tok"⟩ [("end_date", some "banana")] "get_price" true true
        .fstring ⟨200, "okbody"⟩).calls = 1 ∧
    (post ⟨"m", "p", some "tok"⟩ [("end_date", some "banana")] "get_price" true true
        .fstring ⟨200, "okbody"⟩).outcome = .ok (.rstr "okbody") :=
  ⟨rfl, rfl, rfl, rfl⟩

/-- C4: a dispatch with include_token set and no token present (unset, or
present but empty) fails locally with the not-authenticated ValueError
"token is empty, please initialize first", with zero transport invocations
and no payload handed to the transport. -/
theorem c4_no_token_fails_locally (c : Client) (p : Payload) (caller : String)
    (ic : Bool) (fmt : Fmt) (r : Resp)
    (h : c.token = none ∨ c.token = some "") :
    (post c p caller ic true fmt r).outcome =
      .error (.valueError "token is empty, please initialize first") ∧
    (post c p caller ic true fmt r).calls = 0 ∧
    (post c p caller ic true fmt r).sent = none := by
  have ht : tokenTruthy c.token = false := by
    rcases h with h | h <;> rw [h] <;> rfl
  refine ⟨?_, ?_, ?_⟩ <;> simp [post, validateDates_ok, ht]

/-- C4 witness: with no token and a concrete payload, the dispatch fails
locally with the not-authenticated error and zero transport invocations. -/
theorem c4_witness :
    (post ⟨"m", "p", none⟩ [("code", some "000001.XSHG")] "get_price" true true
        .fstring ⟨200, "b"⟩).outcome =
      .error (.valueError "token is empty, please initialize first") ∧
    (post ⟨"m", "p", none⟩ [("code", some "000001.XSHG")] "get_price" true true
        .fstring ⟨200, "b"⟩).calls = 0 ∧
    (post ⟨"m", "p", none⟩ [("code", some "000001.XSHG")] "get_price" true true
        .fstring ⟨200, "b"⟩).sent = none :=
  c4_no_token_fails_locally ⟨"m", "p", none⟩ [("code", some "000001.XSHG")] "get_price"
    true .fstring ⟨200, "b"⟩ (Or.inl rfl)

/-- C6: for every 2xx response whose body does not carry the error prefix,
the list ("lines") format decodes the body by splitting it on newline
characters into an ordered sequence of strings. -/
theorem c6_lines_split (s : Nat) (b : String) (h2 : 200 ≤ s) (h3 : s < 300)
    (he : strStartsWith b "error:" = false) :
    classify .flist ⟨s, b⟩ = .ok (.rlist (pySplitNl b)) := by
  rw [classify_2xx .flist s b h2 h3 he]

/-- C6 witness: the two-line comma-bearing body decodes to exactly the two
line strings, not split further on commas. -/
theorem c6_witness :
    classify .flist
        ⟨200, "AAPL,2020-01-01,2020-01-02\nMSFT,2020-01-01,2020-01-02"⟩ =
      .ok (.rlist ["AAPL,2020-01-01,2020-01-02", "MSFT,2020-01-01,2020-01-02"]) := by
  rw [c6_lines_split 200 "AAPL,2020-01-01,2020-01-02\nMSFT,2020-01-01,2020-01-02"
    (by decide) (by decide) (by decide)]
  rfl

/-- C10: for every 2xx response with an empty body, the list ("lines")
format decodes to the one-element sequence containing the empty string, not
to an empty sequence, mirroring Python str.split with an explicit
separator. -/
theorem c10_empty_body_one_line (s : Nat) (h2 : 200 ≤ s) (h3 : s < 300) :
    classify .flist ⟨s, ""⟩ = .ok (.rlist [""]) := by
  rw [classify_2xx .flist s "" h2 h3 rfl]
  rfl

/-- C10 witness: at status 200 the empty body decodes to the singleton of
the empty string. -/
theorem c10_witness : classify .flist ⟨200, ""⟩ = .ok (.rlist [""]) :=
  c10_empty_body_one_line 200 (by decide) (by decide)

/-- Whether a dispatch outcome is a returned value rather than a raised
error. -/
def exIsOk : Except Err Res → Bool
  | .ok _ => true
  | .error _ => false

/-- C3 counterexample: the claim says any non-2xx status other than 500 and
504 raises the unknown-classified error. The code instead branches on the
requests ok property, which holds for every status below 400: at status 301
with body "hello" the dispatcher raises nothing and returns the decoded
body, refuting the claim. -/
theorem c3_counterexample :
    classify .fstring ⟨301, "hello"⟩ = .ok (.rstr "hello") ∧
    exIsOk (classify .fstring ⟨301, "hello"⟩) = true :=
  ⟨rfl, rfl⟩

/-- C3 amended: classification order over every envelope, with "success"
taken as the requests ok property (status outside 400..599) rather than the
2xx range: 504 raises the timeout error regardless of body; otherwise 500
raises the server error; otherwise an ok status with body starting
"error:auth failed" raises the auth error; an ok status with body starting
"error:" but not the auth variant raises the unknown error carrying the raw
body; and a non-ok status (400..599 other than 500 and 504) raises the
unknown error carrying status code and body. -/
theorem c3_amended_classification (fmt : Fmt) (r : Resp) :
    (r.status = 504 →
      classify fmt r =
        .error (.timeOutError "server timed out. please try to reduce [count] or try later")) ∧
    (r.status ≠ 504 → r.status = 500 →
      classify fmt r =
        .error (.serverError "server error. please check your parameter or try later")) ∧
    (r.status ≠ 504 → r.status ≠ 500 → resOk r.status = true →
      strStartsWith r.body "error:auth failed" = true →
      classify fmt r = .error (.authError "auth failed, please check your credentials")) ∧
    (r.status ≠ 504 → r.status ≠ 500 → resOk r.status = true →
      strStartsWith r.body "error:auth failed" = false →
      strStartsWith r.body "error:" = true →
      classify fmt r =
        .error (.unknownError ("error return with ok status. message: $" ++ r.body))) ∧
    (r.status ≠ 504 → r.status ≠ 500 → resOk r.status = false →
      classify fmt r =
        .error (.unknownError ("post returns unsuccessful with status " ++
          toString r.status ++ ". message: " ++ r.body))) := by
  refine ⟨fun h1 => ?_, fun h1 h2 => ?_, fun h1 h2 h3 h4 => ?_,
    fun h1 h2 h3 h4 h5 => ?_, fun h1 h2 h3 => ?_⟩ <;>
    simp [classify, h1, *]

/-- C3 amended witness: a 504 envelope classifies as the timeout error. -/
theorem c3_amended_witness :
    classify .fstring ⟨504, "x"⟩ =
      .error (.timeOutError "server timed out. please try to reduce [count] or try later") :=
  (c3_amended_classification .fstring ⟨504, "x"⟩).1 rfl

/-- C7: for the json response format and the body with an object holding a
number and a nested array, the decoded value is exactly the parsed JSON
document — json.loads of the body — with the nested structure intact. -/
theorem c7_json_roundtrip :
    jparse "\x7b\"a\":1,\"b\":[2,3]\x7d" =
      some (.jobj [("a", .jnum 1), ("b", .jarr [.jnum 2, .jnum 3])]) ∧
    classify .fjson ⟨200, "\x7b\"a\":1,\"b\":[2,3]\x7d"⟩ =
      .ok (.rjson (.jobj [("a", .jnum 1), ("b", .jarr [.jnum 2, .jnum 3])])) :=
  ⟨rfl, rfl⟩

/-- C8: a dispatch never writes the token field: for every client state,
payload, flags, format and response envelope, the client state after
`_post` — in particular its token — is the state before the call. -/
theorem c8_post_token_frame (c : Client) (p : Payload) (caller : String)
    (ic it : Bool) (fmt : Fmt) (r : Resp) :
    (post c p caller ic it fmt r).client.token = c.token ∧
    (post c p caller ic it fmt r).client = c := by
  have h : (post c p caller ic it fmt r).client = c := by
    cases it with
    | false => rw [post_no_token]
    | true =>
      cases ht : tokenTruthy c.token with
      | true => rw [post_with_token c p caller ic fmt r ht]
      | false => simp [post, validateDates_ok, ht]
  exact ⟨by rw [h], h⟩

/-- C2 counterexample: the claim says that when the retrieval attempt of
`initialize` fails with the authentication classification (status 200, body
"error:auth failed: bad creds"), the mint operation is invoked exactly once
more. The code instead catches only UnknownError in the fallback, so the
AuthError from the first attempt propagates: at that input the transport is
invoked once in total (the mint is never attempted) and `initialize` raises
the auth error. -/
theorem c2_counterexample :
    (initClient ⟨"m", "p", none⟩ ⟨200, "error:auth failed: bad creds"⟩ ⟨200, "tok2"⟩).calls = 1 ∧
    (initClient ⟨"m", "p", none⟩ ⟨200, "error:auth failed: bad creds"⟩ ⟨200, "tok2"⟩).outcome =
      .error (.authError "auth failed, please check your credentials") :=
  ⟨rfl, rfl⟩

/-- C2 amended: during `initialize`, the fallback trigger is the
unknown-error classification, not the authentication one: when the first
(retrieval) attempt classifies as UnknownError, the second (mint) operation
is invoked exactly once more (two transport invocations in total); when the
first attempt classifies as AuthError — such as a 2xx body starting with
"error:auth failed" — the mint is not invoked (one transport invocation)
and the auth error propagates from `initialize`. -/
theorem c2_amended_fallback (c : Client) (r1 r2 : Resp) :
    ((∃ m, classify .fstring r1 = .error (.unknownError m)) →
      (initClient c r1 r2).calls = 2) ∧
    (∀ m, classify .fstring r1 = .error (.authError m) →
      (initClient c r1 r2).calls = 1 ∧
      (initClient c r1 r2).outcome = .error (.authError m)) := by
  constructor
  · rintro ⟨m, hm⟩
    simp only [initClient, post_no_token, hm]
    rcases hc2 : classify .fstring r2 with e2 | v2 <;> simp [hc2]
  · intro m hm
    refine ⟨?_, ?_⟩ <;> simp [initClient, post_no_token, hm]

/-- C2 amended witness: a first attempt answered with an unknown-classified
error body makes `initialize` invoke the transport exactly twice. -/
theorem c2_amended_witness :
    (initClient ⟨"m", "p", none⟩ ⟨200, "error:no current token"⟩ ⟨200, "tok2"⟩).calls = 2 :=
  (c2_amended_fallback ⟨"m", "p", none⟩ ⟨200, "error:no current token"⟩ ⟨200, "tok2"⟩).1
    ⟨"error return with ok status. message: $error:no current token", rfl⟩

/-- C5: the key set of every payload handed to the transport is contained
in the keys of the non-absent input bindings, plus `method` when
include_caller is set and `token` when include_token is set — absent values
never appear in the outgoing payload. -/
theorem c5_sent_keys_subset (c : Client) (p : Payload) (caller : String)
    (ic it : Bool) (fmt : Fmt) (r : Resp) (sp : Payload)
    (hs : (post c p caller ic it fmt r).sent = some sp) (k : String)
    (hk : k ∈ keys sp) :
    (∃ v, (k, some v) ∈ p) ∨ (ic = true ∧ k = "method") ∨ (it = true ∧ k = "token") := by
  cases it with
  | false =>
    rw [post_no_token] at hs
    simp only [Option.some.injEq] at hs
    subst hs
    rcases mem_keys_buildPayload p caller ic k hk with h | h
    · exact Or.inl h
    · exact Or.inr (Or.inl h)
  | true =>
    cases ht : tokenTruthy c.token with
    | false =>
      simp [post, validateDates_ok, ht] at hs
    | true =>
      rw [post_with_token c p caller ic fmt r ht] at hs
      simp only [Option.some.injEq] at hs
      subst hs
      rw [keys, List.mem_map] at hk
      obtain ⟨⟨k1, w⟩, hmem, hfst⟩ := hk
      simp only at hfst
      subst hfst
      rcases mem_setKey_pair "token" (some (c.token.getD "")) k1 w _ hmem with h1 | h1
      · have hk1 : k1 ∈ keys (buildPayload p caller ic) :=
          List.mem_map.mpr ⟨(k1, w), h1, rfl⟩
        rcases mem_keys_buildPayload p caller ic k1 hk1 with h | h
        · exact Or.inl h
        · exact Or.inr (Or.inl h)
      · exact Or.inr (Or.inr ⟨rfl, h1⟩)

/-- C5 witness: a concrete dispatch with one present and one absent binding
sends exactly the present key plus `method` and `token`; the present key
`code` of the sent payload traces back to a present input binding. -/
theorem c5_witness :
    (∃ v, ("code", some v) ∈ ([("code", some "000001.XSHG"), ("date", none)] : Payload)) ∨
    (true = true ∧ "code" = "method") ∨ (true = true ∧ "code" = "token") :=
  c5_sent_keys_subset ⟨"m", "p", some "tok"⟩ [("code", some "000001.XSHG"), ("date", none)]
    "get_price" true true .fstring ⟨200, "b"⟩
    [("code", some "000001.XSHG"), ("method", some "get_price"), ("token", some "tok")]
    rfl "code" (by decide)

/-- C9: initialization is atomic in the token field: whenever `initialize`
terminates by raising an error — a non-fallback classification from the
retrieval attempt, or any error from the mint attempt — the token field
keeps exactly the value it had before the call; the token is assigned only
after a successful attempt. -/
theorem c9_init_atomic (c : Client) (r1 r2 : Resp) (e : Err)
    (h : (initClient c r1 r2).outcome = .error e) :
    (initClient c r1 r2).token = c.token := by
  simp only [initClient, post_no_token] at h ⊢
  rcases hc1 : classify .fstring r1 with e1 | v1
  · cases e1 <;> simp only [hc1] at h ⊢ <;> try rfl
    rcases hc2 : classify .fstring r2 with e2 | v2
    · simp only [hc2] at h ⊢
    · simp only [hc2] at h ⊢
      exact Except.noConfusion h
  · simp only [hc1] at h ⊢
    all_goals exact Except.noConfusion h

/-- C9 witness: a 504 answer to the retrieval attempt makes `initialize`
raise, and the previously stored token stays in place. -/
theorem c9_witness :
    (initClient ⟨"m", "p", some "old"⟩ ⟨504, "x"⟩ ⟨200, "y"⟩).token = some "old" :=
  c9_init_atomic ⟨"m", "p", some "old"⟩ ⟨504, "x"⟩ ⟨200, "y"⟩
    (.timeOutError "server timed out. please try to reduce [count] or try later") rfl
